import Mathlib

/-!
Verification of the reusable primitives of `domino_qa_mcp_server.py`:
the safe-call wrapper `_safe_execute`, the HTTP wrapper `_make_api_request`,
hardware-tier resolution `_validate_hardware_tier`, URL-parameter validation
`_validate_url_parameter`, the settings parser `_load_test_settings`, the
startup configuration, the two poll-until-condition loops, the suite
aggregation thresholds and the scenario catch-all skeleton.

Python values flowing through these functions are modelled by a `Json` tree
(every record the code builds is a JSON-serializable dict); a raised Python
exception is modelled by the `Except.error` case carrying `str(e)`.
`strContains hay needle` models the Python substring test `needle in hay`
(true for the empty needle, as in Python); `String.toLower` models
`str.lower()` (they agree on the ASCII inputs these functions handle).
-/

/-- JSON-like values: the result records and decoded response bodies. -/
inductive Json where
  | null : Json
  | bool : Bool → Json
  | num : Int → Json
  | str : String → Json
  | arr : List Json → Json
  | obj : List (String × Json) → Json

/-- Character-list match: the first list is an initial segment of the second. -/
def leadMatch : List Char → List Char → Bool
  | [], _ => true
  | _ :: _, [] => false
  | c :: cs, d :: ds => c == d && leadMatch cs ds

/-- The first character list occurs contiguously inside the second. -/
def occursIn : List Char → List Char → Bool
  | needle, [] => needle.isEmpty
  | needle, c :: rest => leadMatch needle (c :: rest) || occursIn needle rest

/-- Python substring test `needle in hay` (empty needle is contained in
everything, as in Python). -/
def strContains (hay needle : String) : Bool :=
  occursIn needle.data hay.data

/-- Dictionary lookup on a record built by the code (first binding wins,
as the embedded records never repeat a key). -/
def getField (j : Json) (k : String) : Option Json :=
  match j with
  | .obj fields => (fields.find? (fun p => p.1 == k)).map (fun p => p.2)
  | _ => none

/-- A Python value returned by an operation invoked through `_safe_execute`:
either JSON-encodable (`json.dumps` succeeds) or not, in which case the
wrapper keeps its `str(result)` form. -/
inductive PyVal where
  | encodable : Json → PyVal
  | nonEncodable : String → PyVal

/-- The `serializable_result` computed by `_safe_execute`: the value itself
when `json.dumps` succeeds, its string form otherwise. -/
def serializeResult : PyVal → Json
  | .encodable j => j
  | .nonEncodable s => .str s

/-- Embedding of `_safe_execute` (src/domino_qa_mcp_server.py:884-927).
The invoked operation is modelled by its outcome: `.ok v` when
`func(*args, **kwargs)` returns `v`, `.error msg` when it raises an
exception with `str(e) = msg`. The wrapper is a total function: every
exception is caught and turned into a record. -/
def safe_execute (call : Except String PyVal) (description : String) : Json :=
  match call with
  | .ok v =>
      .obj [("status", .str "PASSED"),
            ("result", serializeResult v),
            ("description", .str description)]
  | .error msg =>
      if strContains msg "404" && strContains msg.toLower "endpoint" then
        .obj [("status", .str "WARNING"),
              ("error", .str ("API endpoint not available: " ++ msg)),
              ("description", .str (description ++ " (endpoint may not exist in this Domino version)")),
              ("guidance", .str "This feature may not be available in your Domino instance or requires different permissions")]
      else if strContains msg "404" then
        .obj [("status", .str "WARNING"),
              ("error", .str ("Resource not found: " ++ msg)),
              ("description", .str (description ++ " (resource may not exist)")),
              ("guidance", .str "The requested resource may not exist or may require setup")]
      else
        .obj [("status", .str "FAILED"),
              ("error", .str msg),
              ("description", .str description)]

/-- The four HTTP verbs `_make_api_request` dispatches on. -/
inductive HttpVerb where
  | GET : HttpVerb
  | POST : HttpVerb
  | PUT : HttpVerb
  | DELETE : HttpVerb
deriving DecidableEq

/-- ASCII upper-casing of one character, as Python `str.upper()` does on
the ASCII method names handled here. -/
def upperChar (c : Char) : Char :=
  if 97 ≤ c.toNat ∧ c.toNat ≤ 122 then Char.ofNat (c.toNat - 32) else c

/-- Model of Python `str.upper()` (ASCII). -/
def pyUpper (s : String) : String := String.mk (s.data.map upperChar)

/-- The method dispatch of `_make_api_request` (the `method.upper() == ...`
chain at src/domino_qa_mcp_server.py:856-865): which verb is requested,
`none` for an unsupported method. -/
def parseMethod (m : String) : Option HttpVerb :=
  if pyUpper m = "GET" then some .GET
  else if pyUpper m = "POST" then some .POST
  else if pyUpper m = "PUT" then some .PUT
  else if pyUpper m = "DELETE" then some .DELETE
  else none

/-- An HTTP response as `requests` hands it back: status code, reason
phrase, body text, and the result of `.json()` (`none` models the
`ValueError` raised when the body is not JSON). -/
structure HttpResponse where
  statusCode : Nat
  reason : String
  text : String
  jsonBody : Option Json

/-- What the underlying `requests.<verb>(...)` call does: return a response,
raise a `requests.exceptions.RequestException` (carrying `str(e)` and the
optional `e.response`), or raise any other exception. -/
inductive ReqOutcome where
  | response : HttpResponse → ReqOutcome
  | requestExc : String → Option HttpResponse → ReqOutcome
  | otherExc : String → ReqOutcome

/-- Message of the `requests.exceptions.HTTPError` raised by
`response.raise_for_status()` on a 4xx/5xx status. -/
def raiseForStatusMsg (code : Nat) (reason url : String) : String :=
  if code < 500 then
    toString code ++ " Client Error: " ++ reason ++ " for url: " ++ url
  else
    toString code ++ " Server Error: " ++ reason ++ " for url: " ++ url

/-- Embedding of `_make_api_request` (src/domino_qa_mcp_server.py:835-882).
The network is modelled by `transport`, giving the outcome of the one
request performed for the dispatched verb. The function is total: every
exception in the Python body is caught by the two `except` clauses. -/
def make_api_request (method endpoint : String) (transport : HttpVerb → ReqOutcome) : Json :=
  match parseMethod method with
  | none => .obj [("error", .str ("Unsupported HTTP method: " ++ method))]
  | some v =>
    match transport v with
    | .requestExc msg resp =>
        .obj [("error", .str ("API request failed: " ++ msg)),
              ("status_code", match resp with | some r => .num r.statusCode | none => .null),
              ("response_text", match resp with | some r => .str r.text | none => .null)]
    | .otherExc msg =>
        .obj [("error", .str ("Unexpected error: " ++ msg))]
    | .response r =>
        if 400 ≤ r.statusCode ∧ r.statusCode < 600 then
          .obj [("error", .str ("API request failed: " ++ raiseForStatusMsg r.statusCode r.reason endpoint)),
                ("status_code", .num r.statusCode),
                ("response_text", .str r.text)]
        else
          match r.jsonBody with
          | some j => j
          | none => .obj [("text_response", .str r.text), ("status_code", .num r.statusCode)]

/-- The characters `_validate_url_parameter` rejects
(src/domino_qa_mcp_server.py:829). -/
def unsafeUrlChars : List Char := ['/', '\\', '?', '#', '&', '=', '%']

/-- UTF-8 encoding of one character (the bytes `urllib.parse.quote` encodes). -/
def utf8Bytes (c : Char) : List Nat :=
  let n := c.toNat
  if n < 128 then [n]
  else if n < 2048 then [192 + n / 64, 128 + n % 64]
  else if n < 65536 then [224 + n / 4096, 128 + (n / 64) % 64, 128 + n % 64]
  else [240 + n / 262144, 128 + (n / 4096) % 64, 128 + (n / 64) % 64, 128 + n % 64]

/-- The bytes `urllib.parse.quote` never encodes regardless of `safe`:
ASCII letters, digits and `_.-~`. -/
def alwaysSafeByte (b : Nat) : Bool :=
  decide (65 ≤ b ∧ b ≤ 90) || decide (97 ≤ b ∧ b ≤ 122) ||
  decide (48 ≤ b ∧ b ≤ 57) || b == 95 || b == 46 || b == 45 || b == 126

/-- Upper-case hexadecimal digit, as `urllib.parse.quote` emits. -/
def hexDigit (n : Nat) : Char :=
  if n < 10 then Char.ofNat (48 + n) else Char.ofNat (55 + n)

/-- How `urllib.parse.quote` renders one UTF-8 byte given the `safe` set. -/
def quoteByte (safe : List Char) (b : Nat) : List Char :=
  if alwaysSafeByte b || (decide (b < 128) && safe.contains (Char.ofNat b)) then
    [Char.ofNat b]
  else
    ['%', hexDigit (b / 16), hexDigit (b % 16)]

/-- Model of `urllib.parse.quote(s, safe)`: percent-encode every UTF-8 byte
outside the always-safe set and the `safe` set. -/
def pyQuote (s : String) (safe : List Char) : String :=
  String.mk ((s.data.flatMap utf8Bytes).flatMap (quoteByte safe))

/-- Embedding of `_validate_url_parameter`
(src/domino_qa_mcp_server.py:811-833): reject the value with a `ValueError`
(the `.error` case) when it contains a character that could break URL
structure, otherwise return `urllib.parse.quote(param_value, safe='')`. -/
def validate_url_parameter (param_value param_name : String) : Except String String :=
  if param_value.data.any (fun c => unsafeUrlChars.contains c) then
    .error ("Invalid " ++ param_name ++ ": '" ++ param_value ++ "' contains unsafe URL characters")
  else
    .ok (pyQuote param_value [])

/-- Embedding of the module-level startup configuration
(src/domino_qa_mcp_server.py:29-36): read `DOMINO_API_KEY` and
`DOMINO_HOST` from the environment (`none` models an unset variable) and
raise `ValueError` when either is unset or empty (Python falsiness covers
both); otherwise startup proceeds with the two values. -/
def startupConfig (env : String → Option String) : Except String (String × String) :=
  let domino_api_key := (env "DOMINO_API_KEY").getD ""
  let domino_host := (env "DOMINO_HOST").getD ""
  if domino_api_key = "" then
    .error "DOMINO_API_KEY environment variable not set."
  else if domino_host = "" then
    .error "DOMINO_HOST environment variable not set."
  else
    .ok (domino_api_key, domino_host)

/-- Python `str.strip()` whitespace characters. -/
def isPySpace (c : Char) : Bool :=
  c == ' ' || c == '\t' || c == '\n' || c == '\r' || c == '\x0b' || c == '\x0c'

/-- Strip characters satisfying `p` from both ends (Python `strip`). -/
def stripChars (p : Char → Bool) (s : String) : String :=
  String.mk (((s.data.dropWhile p).reverse.dropWhile p).reverse)

/-- Model of Python `str.strip()`. -/
def pyStrip (s : String) : String := stripChars isPySpace s

/-- Model of Python `str.strip('"')`: remove double quotes from both ends. -/
def stripQuotes (s : String) : String := stripChars (fun c => c == '\"') s

/-- Python `line.split('=', 1)`: the part before the first `=` and the part
after it (the whole line and `[]` when there is no `=`; only used on lines
containing one). -/
def splitFirstEq : List Char → List Char × List Char
  | [] => ([], [])
  | c :: rest =>
      if c == '=' then ([], rest)
      else
        let p := splitFirstEq rest
        (c :: p.1, p.2)

/-- Python `str.split(sep)` for a one-character separator (`''.split` gives
`['']`, as in Python). -/
def splitOnChar (sep : Char) : List Char → List (List Char)
  | [] => [[]]
  | c :: rest =>
      if c == sep then [] :: splitOnChar sep rest
      else
        match splitOnChar sep rest with
        | [] => [[c]]
        | a :: as => (c :: a) :: as

/-- Python `line.startswith('#')`. -/
def startsWithHash : List Char → Bool
  | [] => false
  | c :: _ => c == '#'

/-- Python dict assignment `d[k] = v`: overwrite in place when the key
exists, append otherwise. -/
def dictInsertS (d : List (String × String)) (k v : String) : List (String × String) :=
  if d.any (fun p => p.1 == k) then d.map (fun p => if p.1 == k then (k, v) else p)
  else d ++ [(k, v)]

/-- One iteration of the parsing loop of `_load_test_settings`
(src/domino_qa_mcp_server.py:1151-1154): on a line containing `=` and not
starting with `#`, split on the first `=`, strip whitespace from the key,
strip whitespace and surrounding double quotes from the value, and store. -/
def parseSettingsLine (acc : List (String × String)) (lineChars : List Char) :
    List (String × String) :=
  if lineChars.contains '=' && !startsWithHash lineChars then
    let p := splitFirstEq lineChars
    dictInsertS acc (pyStrip (String.mk p.1)) (stripQuotes (pyStrip (String.mk p.2)))
  else acc

/-- Embedding of `_load_test_settings`
(src/domino_qa_mcp_server.py:1139-1158): `none` models a missing settings
file (soft error record returned, nothing raised); otherwise the file
content is parsed line by line. Total: the Python `except` clause can
never be reached by the pure parsing above, and a missing file takes the
guarded early return. -/
def load_test_settings (file : Option String) : Json :=
  match file with
  | none => .obj [("error", .str "domino_project_settings.md not found in domino-qa/ folder")]
  | some content =>
      .obj (((splitOnChar '\n' content.data).foldl parseSettingsLine []).map
        (fun p => (p.1, Json.str p.2)))

/-- The parsing rule exactly as C8 words it: whitespace AND surrounding
double quotes stripped from the key as well as from the value. -/
def claimParseSettingsLine (acc : List (String × String)) (lineChars : List Char) :
    List (String × String) :=
  if lineChars.contains '=' && !startsWithHash lineChars then
    let p := splitFirstEq lineChars
    dictInsertS acc (stripQuotes (pyStrip (String.mk p.1)))
      (stripQuotes (pyStrip (String.mk p.2)))
  else acc

/-- `_load_test_settings` as C8 describes it. -/
def claimLoadTestSettings (content : String) : Json :=
  .obj (((splitOnChar '\n' content.data).foldl claimParseSettingsLine []).map
    (fun p => (p.1, Json.str p.2)))

/-- C8 amended, as a parsing rule in the spec's own shape: the key/value
pair contributed by one line — the line must contain `=` and not start with
`#`; the key is whitespace-stripped only, the value is whitespace- and then
quote-stripped. -/
def specSettingsPair (lineChars : List Char) : Option (String × String) :=
  if lineChars.contains '=' && !startsWithHash lineChars then
    some (pyStrip (String.mk (splitFirstEq lineChars).1),
          stripQuotes (pyStrip (String.mk (splitFirstEq lineChars).2)))
  else none

/-- The settings mapping as the amended C8 describes it: collect the pair
of every contributing line, then fold them into a dictionary where a later
occurrence of a key overwrites the earlier one in place. -/
def specLoadTestSettings (file : Option String) : Json :=
  match file with
  | none => .obj [("error", .str "domino_project_settings.md not found in domino-qa/ folder")]
  | some content =>
      .obj ((((splitOnChar '\n' content.data).filterMap specSettingsPair).foldl
        (fun acc p => dictInsertS acc p.1 p.2) []).map (fun p => (p.1, Json.str p.2)))

/-- ASCII lower-casing of one character, as Python `str.lower()` does on
the ASCII tier names handled here. -/
def lowerChar (c : Char) : Char :=
  if 65 ≤ c.toNat ∧ c.toNat ≤ 90 then Char.ofNat (c.toNat + 32) else c

/-- Model of Python `str.lower()` (ASCII). -/
def pyLower (s : String) : String := String.mk (s.data.map lowerChar)

/-- One hardware-tier record as `_validate_hardware_tier` reads it:
`tier.get('id')` and `tier.get('name')` may be absent (`none`), and the two
flags come from `tier.get('flags', {})`. -/
structure Tier where
  id : Option String
  name : Option String
  isModelApiTier : Bool
  isDefault : Bool
deriving DecidableEq

/-- The hardcoded fallback table of `_validate_hardware_tier`
(src/domino_qa_mcp_server.py:748-752). -/
def fallback_mapping (s : String) : Option String :=
  if s = "small" then some "small-k8s"
  else if s = "medium" then some "medium-k8s"
  else if s = "large" then some "large-k8s"
  else none

/-- The final branch of `_validate_hardware_tier`
(src/domino_qa_mcp_server.py:763-767): the first tier flagged default, else
the first tier, its id defaulting to `"small-k8s"`. -/
def defaultOrFirstId (tier_data : List Tier) (t0 : Tier) : Option String :=
  some (((tier_data.find? (fun t => t.isDefault)).getD t0).id.getD "small-k8s")

/-- Embedding of `_validate_hardware_tier`
(src/domino_qa_mcp_server.py:696-767), with the tier list (the result of
`_get_hardware_tier_data()`) made an explicit argument. `none` as a result
models Python returning `None` (possible when a matched tier lacks an id).
The match cascade follows the source: empty list; empty name; exact id;
exact name excluding Model API tiers; case-insensitive on name or id
excluding Model API tiers; substring in either direction excluding Model
API tiers; fallback table (only when the fallback id exists); default tier
or first tier. -/
def validate_hardware_tier (tier_name : String) (tier_data : List Tier) : Option String :=
  match tier_data with
  | [] => some "small-k8s"
  | t0 :: _ =>
    if tier_name = "" then
      let regular := tier_data.filter (fun t => !t.isModelApiTier)
      let dflt := (regular.find? (fun t => t.isDefault)).getD (regular.headD t0)
      some (dflt.id.getD "small-k8s")
    else
      match tier_data.find? (fun t => t.id == some tier_name) with
      | some t => t.id
      | none =>
        match tier_data.find? (fun t => t.name == some tier_name && !t.isModelApiTier) with
        | some t => t.id
        | none =>
          match tier_data.find? (fun t => !t.isModelApiTier &&
              (pyLower (t.name.getD "") == pyLower tier_name
               || pyLower (t.id.getD "") == pyLower tier_name)) with
          | some t => t.id
          | none =>
            match tier_data.find? (fun t => !t.isModelApiTier &&
                (strContains (pyLower (t.id.getD "")) (pyLower tier_name)
                 || strContains (pyLower (t.name.getD "")) (pyLower tier_name)
                 || strContains (pyLower tier_name) (pyLower (t.id.getD ""))
                 || strContains (pyLower tier_name) (pyLower (t.name.getD "")))) with
            | some t => t.id
            | none =>
              match fallback_mapping (pyLower tier_name) with
              | some fid =>
                  if tier_data.any (fun t => t.id == some fid) then some fid
                  else defaultOrFirstId tier_data t0
              | none => defaultOrFirstId tier_data t0

/-- Hardware-tier resolution exactly as C3 words it: the same order of
attempts but with the case-insensitive and substring steps NOT excluding
Model API tiers, and the fallback table applied unconditionally. -/
def claimResolveHardwareTier (tier_name : String) (tier_data : List Tier) : Option String :=
  match tier_data with
  | [] => some "small-k8s"
  | t0 :: _ =>
    if tier_name = "" then
      let regular := tier_data.filter (fun t => !t.isModelApiTier)
      let dflt := (regular.find? (fun t => t.isDefault)).getD (regular.headD t0)
      some (dflt.id.getD "small-k8s")
    else
      match tier_data.find? (fun t => t.id == some tier_name) with
      | some t => t.id
      | none =>
        match tier_data.find? (fun t => t.name == some tier_name && !t.isModelApiTier) with
        | some t => t.id
        | none =>
          match tier_data.find? (fun t =>
              pyLower (t.name.getD "") == pyLower tier_name
              || pyLower (t.id.getD "") == pyLower tier_name) with
          | some t => t.id
          | none =>
            match tier_data.find? (fun t =>
                strContains (pyLower (t.id.getD "")) (pyLower tier_name)
                 || strContains (pyLower (t.name.getD "")) (pyLower tier_name)
                 || strContains (pyLower tier_name) (pyLower (t.id.getD ""))
                 || strContains (pyLower tier_name) (pyLower (t.name.getD ""))) with
            | some t => t.id
            | none =>
              match fallback_mapping (pyLower tier_name) with
              | some fid => some fid
              | none => defaultOrFirstId tier_data t0

/-- Concrete tier list separating the code from C3 as stated: a Model API
tier whose name matches case-insensitively, before a regular tier. -/
def cexTiers : List Tier :=
  [{ id := some "A", name := some "foo", isModelApiTier := true, isDefault := false },
   { id := some "B", name := some "FOO", isModelApiTier := false, isDefault := false }]

/-- Hardware-tier resolution as the amended C3 describes it, written as one
chain of attempts: exact identifier match; exact display-name match
excluding Model API tiers; case-insensitive match on name or identifier
excluding Model API tiers; substring match in either direction excluding
Model API tiers; then the hardcoded fallback table (used only when the
fallback identifier exists in the list); then the declared default tier;
then the first tier. Resolving an empty name yields the default among the
non-Model-API tiers (else the first such tier, else the first tier), and
any name against an empty list yields "small-k8s". -/
def specResolveHardwareTier (tier_name : String) (tiers : List Tier) : Option String :=
  match tiers with
  | [] => some "small-k8s"
  | t0 :: _ =>
    if tier_name = "" then
      let regular := tiers.filter (fun t => !t.isModelApiTier)
      some (((regular.find? (fun t => t.isDefault)).getD (regular.headD t0)).id.getD "small-k8s")
    else
      match (tiers.find? (fun t => t.id == some tier_name)) <|>
            (tiers.find? (fun t => t.name == some tier_name && !t.isModelApiTier)) <|>
            (tiers.find? (fun t => !t.isModelApiTier &&
              (pyLower (t.name.getD "") == pyLower tier_name
               || pyLower (t.id.getD "") == pyLower tier_name))) <|>
            (tiers.find? (fun t => !t.isModelApiTier &&
              (strContains (pyLower (t.id.getD "")) (pyLower tier_name)
               || strContains (pyLower (t.name.getD "")) (pyLower tier_name)
               || strContains (pyLower tier_name) (pyLower (t.id.getD ""))
               || strContains (pyLower tier_name) (pyLower (t.name.getD ""))))) with
      | some t => t.id
      | none =>
        match fallback_mapping (pyLower tier_name) with
        | some fid =>
            if tiers.any (fun t => t.id == some fid) then some fid
            else defaultOrFirstId tiers t0
        | none => defaultOrFirstId tiers t0

/-- Outcome of the workspace Running-status poll loop: the success branch
with the recorded elapsed seconds, or the timeout branch with the elapsed
seconds accumulated when the `while` guard fails. -/
inductive PollOutcome where
  | success : Nat → PollOutcome
  | timedOut : Nat → PollOutcome
deriving DecidableEq

/-- Embedding of the Running-status poll loop of
`test_workspace_hardware_tiers` (src/domino_qa_mcp_server.py:3449-3494):
`while elapsed < 300`, check the predicate (the k-th status check reporting
`isRunning` or `rawExecutionDisplayStatus == "Running"` on an error-free
response), break with the elapsed time on success, else sleep 10 and add 10
to `elapsed`. Status checks are modelled as instantaneous, under which the
wall-clock `max_time_per_tier` branch (equal budget of 300 s measured from
before the loop) never fires before the `while` guard ends the loop.
Totality of this well-founded definition is the termination of the loop. -/
def wsRunningPoll (pred : Nat → Bool) (k elapsed : Nat) : PollOutcome :=
  if h : elapsed < 300 then
    if pred k then .success elapsed
    else wsRunningPoll pred (k + 1) (elapsed + 10)
  else .timedOut elapsed
termination_by 300 - elapsed
decreasing_by omega

/-- Outcome of the build poll loop: Succeeded with elapsed seconds, a
Failed/Error build status, or timeout. -/
inductive BuildOutcome where
  | success : Nat → BuildOutcome
  | failedStatus : String → BuildOutcome
  | timedOut : BuildOutcome
deriving DecidableEq

/-- Embedding of the build-completion poll loop of
`test_post_upgrade_env_rebuild` (src/domino_qa_mcp_server.py:10165-10202):
`while` under the 300 s budget, read the k-th status check (`none` models a
non-200 status response, which is skipped), break on "Succeeded" with the
elapsed time, break on "Failed"/"Error", else sleep 10. Wall-clock time is
modelled as the accumulated sleep time (checks instantaneous). Totality of
this well-founded definition is the termination of the loop. -/
def buildPoll (check : Nat → Option String) (k elapsed : Nat) : BuildOutcome :=
  if h : elapsed < 300 then
    match check k with
    | some s =>
        if s = "Succeeded" then .success elapsed
        else if s = "Failed" ∨ s = "Error" then .failedStatus s
        else buildPoll check (k + 1) (elapsed + 10)
    | none => buildPoll check (k + 1) (elapsed + 10)
  else .timedOut
termination_by 300 - elapsed
decreasing_by all_goals omega

/-- Number of sub-results with status "PASSED" (the list comprehensions at
src/domino_qa_mcp_server.py:7393 and 7676). -/
def countPassed (statuses : List String) : Nat :=
  (statuses.filter (fun s => s == "PASSED")).length

/-- The user suite verdict (src/domino_qa_mcp_server.py:7682, copied into
the suite status at line 7685): `"PASSED" if passed_tests >= total_tests *
0.6 else "FAILED"`. The IEEE-double comparison `p >= t * 0.6` agrees with
the exact rational comparison `10 * p >= 6 * t` for every feasible t: the
double nearest 0.6 is strictly below 3/5 by about 2.2e-17, so for t not a
multiple of 5 the product is far from any integer, and for t a multiple of
5 the rounded product lies in (3t/5 - 1, 3t/5], giving the same integer
comparisons. -/
def userSuiteOverallStatus (testStatuses : List String) : String :=
  if 10 * countPassed testStatuses ≥ 6 * testStatuses.length then "PASSED" else "FAILED"

/-- The admin portal suite `completion_status`
(src/domino_qa_mcp_server.py:7434): `"PASSED" if passed_categories >=
total_categories * 0.7 else "PARTIAL" if passed_categories > 0 else
"FAILED"`, with the float comparison modelled exactly as `10 * p >= 7 * t`
(same argument as for 0.6). -/
def adminCompletionStatus (passed total : Nat) : String :=
  if 10 * passed ≥ 7 * total then "PASSED"
  else if passed > 0 then "PARTIAL"
  else "FAILED"

/-- The admin portal suite top-level `status` field
(src/domino_qa_mcp_server.py:7438-7451): a four-way grading, modelled with
the float thresholds 0.8 and 0.6 as exact rational comparisons. -/
def adminSuiteStatus (passed total : Nat) : String :=
  if 10 * passed ≥ 8 * total then "EXCELLENT"
  else if 10 * passed ≥ 6 * total then "GOOD"
  else if passed > 0 then "PARTIAL"
  else "FAILED"

/-- The scenario tools in C5's scope that build an initial result record
and wrap the whole remaining body in one `try`/`except`: every `@mcp.tool()`
function whose name starts with test_, run_ or cleanup_, except
`run_domino_job` (src/domino_qa_mcp_server.py:7842-7885), which has no
initial record and is embedded separately as `run_domino_job`. -/
inductive ScenarioTool where
  | userAuthentication : ScenarioTool
  | fileManagementOperations : ScenarioTool
  | advancedJobOperations : ScenarioTool
  | workspaceHardwareTiers : ScenarioTool
  | workspaceFileSync : ScenarioTool
  | comprehensiveIdeWorkspaceSuite : ScenarioTool
  | cleanupAllProjectWorkspaces : ScenarioTool
  | cleanupAllProjectDatasets : ScenarioTool
  | jobScheduling : ScenarioTool
  | adminPortalUatSuite : ScenarioTool
  | modelApiPublish : ScenarioTool
  | appPublish : ScenarioTool
  | postUpgradeEnvRebuild : ScenarioTool
  | projectCopying : ScenarioTool
  | projectForking : ScenarioTool
  | fileVersionReversion : ScenarioTool
deriving DecidableEq

/-- The status string each record-based tool's whole-body `except Exception`
handler writes, read off the handlers in the source: "FAILED" everywhere
except `test_comprehensive_ide_workspace_suite` (line 4652) and
`test_post_upgrade_env_rebuild` (line 10262), whose handlers write
"ERROR". -/
def exceptStatus : ScenarioTool → String
  | .comprehensiveIdeWorkspaceSuite => "ERROR"
  | .postUpgradeEnvRebuild => "ERROR"
  | _ => "FAILED"

/-- Python dict assignment on a result record holding Json values
(`test_results["status"] = ...` / `test_results.update({...})`):
overwrite in place when the key exists, append otherwise. -/
def dictInsertJ (d : List (String × Json)) (k : String) (v : Json) : List (String × Json) :=
  if d.any (fun p => p.1 == k) then d.map (fun p => if p.1 == k then (k, v) else p)
  else d ++ [(k, v)]

/-- The common skeleton of the sixteen record-based scenario tools (e.g.
`test_user_authentication`, src/domino_qa_mcp_server.py:1357-1411, and
`start_workspace`-style handlers at 612-618): build the initial result
record, run the whole body inside `try`, and on any exception write the
handler's status and `error: str(e)` into the record and return it. The
body is modelled by its outcome given the initial record. Totality of
`scenarioInvoke` models that these tool calls themselves never raise. -/
def scenarioInvoke (t : ScenarioTool) (initial : List (String × Json))
    (body : List (String × Json) → Except String Json) : Json :=
  match body initial with
  | .ok r => r
  | .error e =>
      .obj (dictInsertJ (dictInsertJ initial "status" (.str (exceptStatus t)))
        "error" (.str e))

/-- Net effect of the `try` block of `run_domino_job`
(src/domino_qa_mcp_server.py:7876-7879): the POST either yields a decoded
JSON body, or raises a `requests.exceptions.RequestException` (transport
failure or `raise_for_status` on 4xx/5xx) with `str(e) = msg`, or raises
any other exception (e.g. the `ValueError` of `.json()` on a non-JSON
body) with `str(e) = msg`. -/
inductive JobTryOutcome where
  | ok : Json → JobTryOutcome
  | requestExc : String → JobTryOutcome
  | otherExc : String → JobTryOutcome

/-- Embedding of `run_domino_job` (src/domino_qa_mcp_server.py:7842-7885).
Unlike the record-based tools it builds no initial result record and calls
`_validate_url_parameter` on both parameters BEFORE its `try`, so a
`ValueError` from validation propagates out of the tool call (the `.error`
case). Its `except` clauses replace the result with `{"error": "API
request failed: <e>"}` for request exceptions and `{"error": "An
unexpected error occurred: <e>"}` otherwise — no `status` key and a
prefixed message. -/
def run_domino_job (user_name project_name : String) (tryOutcome : JobTryOutcome) :
    Except String Json :=
  match validate_url_parameter user_name "user_name" with
  | .error e => .error e
  | .ok _ =>
    match validate_url_parameter project_name "project_name" with
    | .error e => .error e
    | .ok _ =>
      .ok (match tryOutcome with
        | .ok j => j
        | .requestExc msg => .obj [("error", .str ("API request failed: " ++ msg))]
        | .otherExc msg => .obj [("error", .str ("An unexpected error occurred: " ++ msg))])

/-- C1: through `_safe_execute`, an exception whose string contains "404"
yields a WARNING record; any other exception yields a FAILED record whose
error field is the exception message; a normal return yields a PASSED record
whose result field is the return value, replaced by its string form when the
value is not JSON-encodable. The wrapper itself never raises: `safe_execute`
is a total function of the call outcome. -/
theorem safe_execute_spec (call : Except String PyVal) (description : String) :
    (∀ msg, call = .error msg → strContains msg "404" = true →
        getField (safe_execute call description) "status" = some (.str "WARNING"))
    ∧ (∀ msg, call = .error msg → strContains msg "404" = false →
        getField (safe_execute call description) "status" = some (.str "FAILED") ∧
        getField (safe_execute call description) "error" = some (.str msg))
    ∧ (∀ v, call = .ok v →
        getField (safe_execute call description) "status" = some (.str "PASSED") ∧
        getField (safe_execute call description) "result" = some (serializeResult v) ∧
        (∀ j, v = .encodable j →
          getField (safe_execute call description) "result" = some j) ∧
        (∀ s, v = .nonEncodable s →
          getField (safe_execute call description) "result" = some (.str s))) := by
  refine ⟨?_, ?_, ?_⟩
  · intro msg hc h404
    subst hc
    simp only [safe_execute, h404, Bool.true_and]
    cases h : strContains msg.toLower "endpoint" <;> simp [getField]
  · intro msg hc h404
    subst hc
    simp [safe_execute, h404, getField]
  · intro v hc
    subst hc
    refine ⟨by simp [safe_execute, getField], by simp [safe_execute, getField], ?_, ?_⟩
    · intro j hv; subst hv; simp [safe_execute, getField, serializeResult]
    · intro s hv; subst hv; simp [safe_execute, getField, serializeResult]

/-- Witness for C1 at concrete inputs. -/
theorem safe_execute_spec_witness :
    getField (safe_execute (.error "got 404 from server") "d") "status" = some (.str "WARNING")
    ∧ (getField (safe_execute (.error "boom") "d") "status" = some (.str "FAILED") ∧
       getField (safe_execute (.error "boom") "d") "error" = some (.str "boom"))
    ∧ getField (safe_execute (.ok (.encodable (.num 7))) "d") "result" = some (.num 7) := by
  refine ⟨?_, ?_, ?_⟩
  · exact (safe_execute_spec (.error "got 404 from server") "d").1 _ rfl (by decide)
  · exact (safe_execute_spec (.error "boom") "d").2.1 _ rfl (by decide)
  · exact ((safe_execute_spec (.ok (.encodable (.num 7))) "d").2.2 _ rfl).2.2.1 _ rfl

/-- C2: `_make_api_request` never raises (it is a total function of the
transport outcome); when the transport raises, the returned mapping has an
"error" key, with the HTTP status code and response body text when a
response is attached to the exception; a 2xx response with a JSON body is
returned decoded and unchanged; a 2xx response with a non-JSON body yields
the `{text_response, status_code}` mapping. -/
theorem make_api_request_spec (method endpoint : String) (transport : HttpVerb → ReqOutcome) :
    (∀ v msg resp, parseMethod method = some v → transport v = .requestExc msg resp →
        getField (make_api_request method endpoint transport) "error" =
          some (.str ("API request failed: " ++ msg)) ∧
        (∀ r, resp = some r →
          getField (make_api_request method endpoint transport) "status_code" =
            some (.num r.statusCode) ∧
          getField (make_api_request method endpoint transport) "response_text" =
            some (.str r.text)))
    ∧ (∀ v msg, parseMethod method = some v → transport v = .otherExc msg →
        getField (make_api_request method endpoint transport) "error" =
          some (.str ("Unexpected error: " ++ msg)))
    ∧ (∀ v r, parseMethod method = some v → transport v = .response r →
        200 ≤ r.statusCode → r.statusCode < 300 →
        (∀ j, r.jsonBody = some j → make_api_request method endpoint transport = j) ∧
        (r.jsonBody = none → make_api_request method endpoint transport =
          .obj [("text_response", .str r.text), ("status_code", .num r.statusCode)])) := by
  refine ⟨?_, ?_, ?_⟩
  · intro v msg resp hm ht
    simp only [make_api_request, hm, ht]
    refine ⟨by simp [getField], ?_⟩
    intro r hr
    subst hr
    simp [getField]
  · intro v msg hm ht
    simp [make_api_request, hm, ht, getField]
  · intro v r hm ht h200 h300
    have hrange : ¬(400 ≤ r.statusCode ∧ r.statusCode < 600) := by omega
    constructor
    · intro j hj
      simp [make_api_request, hm, ht, hrange, hj]
    · intro hj
      simp [make_api_request, hm, ht, hrange, hj]

/-- Witness for C2 at concrete inputs. -/
theorem make_api_request_spec_witness :
    (getField (make_api_request "GET" "http://h/x"
        (fun _ => .requestExc "connection refused" none)) "error" =
      some (.str ("API request failed: " ++ "connection refused")))
    ∧ (make_api_request "GET" "http://h/x"
        (fun _ => .response ⟨200, "OK", "{}", some (.obj [("a", .num 1)])⟩) =
        .obj [("a", .num 1)])
    ∧ (make_api_request "GET" "http://h/x"
        (fun _ => .response ⟨204, "No Content", "plain", none⟩) =
        .obj [("text_response", .str "plain"), ("status_code", .num 204)]) := by
  refine ⟨?_, ?_, ?_⟩
  · exact ((make_api_request_spec "GET" "http://h/x"
      (fun _ => .requestExc "connection refused" none)).1 .GET
      "connection refused" none (by decide) rfl).1
  · exact ((make_api_request_spec "GET" "http://h/x"
      (fun _ => .response ⟨200, "OK", "{}", some (.obj [("a", .num 1)])⟩)).2.2 .GET
      ⟨200, "OK", "{}", some (.obj [("a", .num 1)])⟩ (by decide) rfl
      (by decide) (by decide)).1 _ rfl
  · exact ((make_api_request_spec "GET" "http://h/x"
      (fun _ => .response ⟨204, "No Content", "plain", none⟩)).2.2 .GET
      ⟨204, "No Content", "plain", none⟩ (by decide) rfl
      (by decide) (by decide)).2 rfl

/-- C10: a method whose upper-cased form is not GET, POST, PUT or DELETE
yields the record `{"error": "Unsupported HTTP method: <method>"}` and the
transport is never consulted (any two transports give the same result);
method matching is case-insensitive: "get" and "GET" dispatch the same
verb, and any two methods dispatching the same verb behave identically. -/
theorem make_api_request_method_spec (endpoint : String) :
    (∀ m t, parseMethod m = none →
        make_api_request m endpoint t =
          .obj [("error", .str ("Unsupported HTTP method: " ++ m))])
    ∧ (∀ m t₁ t₂, parseMethod m = none →
        make_api_request m endpoint t₁ = make_api_request m endpoint t₂)
    ∧ (∀ m, parseMethod m = none ↔
        pyUpper m ∉ (["GET", "POST", "PUT", "DELETE"] : List String))
    ∧ (parseMethod "get" = some .GET ∧ parseMethod "GET" = some .GET)
    ∧ (∀ m₁ m₂ v t, parseMethod m₁ = some v → parseMethod m₂ = some v →
        getField (make_api_request m₁ endpoint t) "status_code" =
          getField (make_api_request m₂ endpoint t) "status_code") := by
  refine ⟨?_, ?_, ?_, ⟨by decide, by decide⟩, ?_⟩
  · intro m t hm
    simp [make_api_request, hm]
  · intro m t₁ t₂ hm
    simp [make_api_request, hm]
  · intro m
    constructor
    · intro hm
      simp only [parseMethod] at hm
      split_ifs at hm with h1 h2 h3 h4
      simp [h1, h2, h3, h4]
    · intro hm
      simp only [List.mem_insert_iff, List.mem_cons, List.mem_singleton,
        List.not_mem_nil] at hm
      push_neg at hm
      simp only [parseMethod]
      split_ifs with h1 h2 h3 h4 <;> first
        | rfl
        | (exfalso; simp_all)
  · intro m₁ m₂ v t h1 h2
    simp only [make_api_request, h1, h2]

/-- Witness for C10 at concrete inputs. -/
theorem make_api_request_method_spec_witness :
    (make_api_request "PATCH" "http://h/x" (fun _ => .otherExc "boom") =
      .obj [("error", .str ("Unsupported HTTP method: " ++ "PATCH"))])
    ∧ (parseMethod "get" = some .GET ∧ parseMethod "GET" = some .GET)
    ∧ getField (make_api_request "get" "http://h/x"
        (fun _ => .response ⟨204, "No Content", "plain", none⟩)) "status_code" =
      getField (make_api_request "GET" "http://h/x"
        (fun _ => .response ⟨204, "No Content", "plain", none⟩)) "status_code" := by
  refine ⟨?_, ?_, ?_⟩
  · exact (make_api_request_method_spec "http://h/x").1 "PATCH" _ (by decide)
  · exact (make_api_request_method_spec "http://h/x").2.2.2.1
  · exact (make_api_request_method_spec "http://h/x").2.2.2.2 "get" "GET" .GET _
      (by decide) (by decide)

/-- C9: `_validate_url_parameter` raises `ValueError` if and only if the
value contains one of `/ \ ? # & = %`; for every other input (empty and
non-ASCII included) it returns `urllib.parse.quote` of the value with an
empty `safe` set, i.e. no characters exempted from encoding beyond the
encoder's fixed unreserved set. -/
theorem validate_url_parameter_spec (v name : String) :
    ((∃ e, validate_url_parameter v name = .error e) ↔
      v.data.any (fun c => unsafeUrlChars.contains c) = true)
    ∧ (v.data.any (fun c => unsafeUrlChars.contains c) = false →
      validate_url_parameter v name = .ok (pyQuote v [])) := by
  constructor
  · constructor
    · rintro ⟨e, he⟩
      by_contra hb
      have hfalse : v.data.any (fun c => unsafeUrlChars.contains c) = false := by
        cases h : v.data.any (fun c => unsafeUrlChars.contains c)
        · rfl
        · exact absurd h hb
      rw [validate_url_parameter, hfalse] at he
      simp at he
    · intro h
      refine ⟨"Invalid " ++ name ++ ": '" ++ v ++ "' contains unsafe URL characters", ?_⟩
      rw [validate_url_parameter, h]
      simp
  · intro h
    rw [validate_url_parameter, h]
    simp

/-- Witness for C9 at concrete inputs: a rejected value, an accepted ASCII
value, the empty string, and a non-ASCII value whose UTF-8 bytes are
percent-encoded. -/
theorem validate_url_parameter_spec_witness :
    (∃ e, validate_url_parameter "a/b" "p" = .error e)
    ∧ validate_url_parameter "ab c" "p" = .ok (pyQuote "ab c" [])
    ∧ validate_url_parameter "" "p" = .ok (pyQuote "" [])
    ∧ pyQuote "ab c" [] = "ab%20c"
    ∧ pyQuote "café" [] = "caf%C3%A9" := by
  refine ⟨?_, ?_, ?_, by decide, by decide⟩
  · exact (validate_url_parameter_spec "a/b" "p").1.2 (by decide)
  · exact (validate_url_parameter_spec "ab c" "p").2 (by decide)
  · exact (validate_url_parameter_spec "" "p").2 (by decide)

/-- C6 counterexample: the claim says legacy-named fallback variables are
consulted when the primary names are unset. In this environment every
variable except the two primary names is set (so any legacy-named fallback,
whatever its name, is set), yet startup raises the fatal error: the code
consults no fallback. -/
theorem startup_config_counterexample :
    startupConfig
      (fun n => if n = "DOMINO_API_KEY" ∨ n = "DOMINO_HOST" then none else some "legacy-value")
      = .error "DOMINO_API_KEY environment variable not set." := by
  rfl

/-- C6 amended: the base URL and API key are read from exactly the two
environment variables `DOMINO_API_KEY` and `DOMINO_HOST` with no fallbacks
(the outcome depends on no other variable); absence or emptiness of either
raises a fatal `ValueError` that terminates startup, the API key being
checked first; when both are present and non-empty, startup proceeds with
the two values. -/
theorem startup_config_spec (env : String → Option String) :
    (∀ k h, env "DOMINO_API_KEY" = some k → k ≠ "" →
        env "DOMINO_HOST" = some h → h ≠ "" →
        startupConfig env = .ok (k, h))
    ∧ ((env "DOMINO_API_KEY").getD "" = "" →
        startupConfig env = .error "DOMINO_API_KEY environment variable not set.")
    ∧ (∀ k, env "DOMINO_API_KEY" = some k → k ≠ "" →
        (env "DOMINO_HOST").getD "" = "" →
        startupConfig env = .error "DOMINO_HOST environment variable not set.")
    ∧ (∀ env2 : String → Option String,
        env "DOMINO_API_KEY" = env2 "DOMINO_API_KEY" →
        env "DOMINO_HOST" = env2 "DOMINO_HOST" →
        startupConfig env = startupConfig env2) := by
  refine ⟨?_, ?_, ?_, ?_⟩
  · intro k h hk hkne hh hhne
    simp [startupConfig, hk, hh, hkne, hhne]
  · intro hk
    simp [startupConfig, hk]
  · intro k hk hkne hh
    simp [startupConfig, hk, hkne, hh]
  · intro env2 h1 h2
    simp [startupConfig, h1, h2]

/-- Witness for C6 (amended) at concrete environments. -/
theorem startup_config_spec_witness :
    startupConfig (fun n => if n = "DOMINO_API_KEY" then some "k1"
        else if n = "DOMINO_HOST" then some "h1" else none) = .ok ("k1", "h1")
    ∧ startupConfig (fun _ => none) =
        .error "DOMINO_API_KEY environment variable not set."
    ∧ startupConfig (fun n => if n = "DOMINO_API_KEY" then some "k1" else none) =
        .error "DOMINO_HOST environment variable not set." := by
  refine ⟨?_, ?_, ?_⟩
  · exact (startup_config_spec _).1 "k1" "h1" (by simp) (by decide) (by simp) (by decide)
  · exact (startup_config_spec _).2.1 (by simp)
  · exact (startup_config_spec _).2.2.1 "k1" (by simp) (by decide) (by simp)

/-- C8 counterexample: on the settings line `"k" = v` the code keeps the
double quotes around the key (only the value is quote-stripped), while the
claim's parse rule strips them from the key too; the two mappings differ. -/
theorem load_test_settings_counterexample :
    load_test_settings (some "\"k\" = v") = .obj [("\"k\"", .str "v")]
    ∧ claimLoadTestSettings "\"k\" = v" = .obj [("k", .str "v")]
    ∧ ("\"k\"" : String) ≠ "k" := by
  refine ⟨by rfl, by rfl, by decide⟩

theorem settings_foldl_filterMap (lines : List (List Char)) :
    ∀ acc : List (String × String),
      lines.foldl parseSettingsLine acc =
      (lines.filterMap specSettingsPair).foldl (fun acc p => dictInsertS acc p.1 p.2) acc := by
  induction lines with
  | nil => intro acc; rfl
  | cons l rest ih =>
      intro acc
      by_cases h : (l.contains '=' && !startsWithHash l) = true
      · simp only [List.foldl_cons, List.filterMap_cons, parseSettingsLine, specSettingsPair, h,
          if_true, List.foldl_cons]
        exact ih _
      · simp only [List.foldl_cons, List.filterMap_cons, parseSettingsLine, specSettingsPair, h,
          if_false, Bool.false_eq_true]
        exact ih _

/-- C8 amended: `_load_test_settings` never raises — it is a total function
of the optional file content; a missing file yields the soft error record
with an "error" key; an existing file yields the mapping obtained from each
line that contains `=` and does not start with `#`, split on the first `=`,
the key whitespace-stripped, the value whitespace-stripped and then stripped
of surrounding double quotes (the quotes remain on keys). -/
theorem load_test_settings_spec (file : Option String) :
    load_test_settings file = specLoadTestSettings file
    ∧ (file = none → getField (load_test_settings file) "error" =
        some (.str "domino_project_settings.md not found in domino-qa/ folder")) := by
  constructor
  · match file with
    | none => rfl
    | some content =>
        simp only [load_test_settings, specLoadTestSettings]
        rw [settings_foldl_filterMap]
  · intro h
    subst h
    rfl

/-- Witness for C8 (amended) at concrete inputs. -/
theorem load_test_settings_spec_witness :
    load_test_settings (some "# c\nuser_name = \"alice\"\nplain = 1\nnoequals")
      = specLoadTestSettings (some "# c\nuser_name = \"alice\"\nplain = 1\nnoequals")
    ∧ getField (load_test_settings none) "error" =
        some (.str "domino_project_settings.md not found in domino-qa/ folder")
    ∧ load_test_settings (some "# c\nuser_name = \"alice\"\nplain = 1\nnoequals")
      = .obj [("user_name", .str "alice"), ("plain", .str "1")] := by
  refine ⟨(load_test_settings_spec (some "# c\nuser_name = \"alice\"\nplain = 1\nnoequals")).1,
    (load_test_settings_spec none).2 rfl, by rfl⟩

/-- C3 counterexample: resolving "Foo" against `cexTiers`, the code skips
the Model API tier at the case-insensitive step and returns "B", while the
claim's procedure (case-insensitive step without the Model API exclusion)
returns "A". -/
theorem validate_hardware_tier_counterexample :
    validate_hardware_tier "Foo" cexTiers = some "B"
    ∧ claimResolveHardwareTier "Foo" cexTiers = some "A"
    ∧ validate_hardware_tier "Foo" cexTiers ≠ claimResolveHardwareTier "Foo" cexTiers := by
  refine ⟨by rfl, by rfl, by decide⟩

/-- C3 amended: `_validate_hardware_tier` equals the resolution procedure of
the amended claim on every requested name and tier list; in particular any
name resolves to "small-k8s" against the empty list, and the empty name
resolves to the default tier among non-Model-API tiers. -/
theorem validate_hardware_tier_spec (tier_name : String) (tiers : List Tier) :
    validate_hardware_tier tier_name tiers = specResolveHardwareTier tier_name tiers
    ∧ (∀ n, validate_hardware_tier n [] = some "small-k8s") := by
  refine ⟨?_, fun n => rfl⟩
  match tiers with
  | [] => rfl
  | t0 :: rest =>
    by_cases hname : tier_name = ""
    · simp [validate_hardware_tier, specResolveHardwareTier, hname]
    · simp only [validate_hardware_tier, specResolveHardwareTier, if_neg hname]
      cases (t0 :: rest).find? (fun t => t.id == some tier_name) <;>
        cases (t0 :: rest).find? (fun t => t.name == some tier_name && !t.isModelApiTier) <;>
        cases (t0 :: rest).find? (fun t => !t.isModelApiTier &&
          (pyLower (t.name.getD "") == pyLower tier_name
           || pyLower (t.id.getD "") == pyLower tier_name)) <;>
        cases (t0 :: rest).find? (fun t => !t.isModelApiTier &&
          (strContains (pyLower (t.id.getD "")) (pyLower tier_name)
           || strContains (pyLower (t.name.getD "")) (pyLower tier_name)
           || strContains (pyLower tier_name) (pyLower (t.id.getD ""))
           || strContains (pyLower tier_name) (pyLower (t.name.getD "")))) <;>
        rfl

theorem wsRunningPoll_success_aux (pred : Nat → Bool) :
    ∀ d i, (∀ j, j < d → pred (i + j) = false) → pred (i + d) = true →
      10 * (i + d) < 300 →
      wsRunningPoll pred i (10 * i) = .success (10 * (i + d)) := by
  intro d
  induction d with
  | zero =>
      intro i _ hp hlt
      simp only [Nat.add_zero] at hp hlt ⊢
      rw [wsRunningPoll]
      rw [dif_pos (by omega), if_pos hp]
  | succ d ih =>
      intro i hbefore hp hlt
      rw [wsRunningPoll]
      have h0 : pred i = false := by simpa using hbefore 0 (Nat.succ_pos d)
      rw [dif_pos (by omega), if_neg (by simp [h0])]
      have harith : 10 * i + 10 = 10 * (i + 1) := by ring
      have hidx : i + 1 + d = i + (d + 1) := by omega
      rw [harith]
      have := ih (i + 1)
        (fun j hj => by
          have h := hbefore (j + 1) (by omega)
          have : i + 1 + j = i + (j + 1) := by omega
          rw [this]
          exact h)
        (by rw [hidx]; exact hp)
        (by omega)
      rw [this, hidx]

theorem wsRunningPoll_timeout_aux (pred : Nat → Bool) (hpred : ∀ j, pred j = false) :
    ∀ n i, i + n = 30 → wsRunningPoll pred i (10 * i) = .timedOut 300 := by
  intro n
  induction n with
  | zero =>
      intro i hi
      rw [wsRunningPoll]
      have hge : ¬(10 * i < 300) := by omega
      rw [dif_neg hge]
      have : i = 30 := by omega
      subst this
      rfl
  | succ n ih =>
      intro i hi
      rw [wsRunningPoll]
      rw [dif_pos (by omega), if_neg (by simp [hpred i])]
      have harith : 10 * i + 10 = 10 * (i + 1) := by ring
      rw [harith]
      exact ih (i + 1) (by omega)

theorem buildPoll_success_aux (check : Nat → Option String) :
    ∀ d i, (∀ j, j < d → ∀ s, check (i + j) = some s →
        s ≠ "Succeeded" ∧ s ≠ "Failed" ∧ s ≠ "Error") →
      check (i + d) = some "Succeeded" → 10 * (i + d) < 300 →
      buildPoll check i (10 * i) = .success (10 * (i + d)) := by
  intro d
  induction d with
  | zero =>
      intro i _ hc hlt
      simp only [Nat.add_zero] at hc hlt ⊢
      rw [buildPoll]
      rw [dif_pos (by omega)]
      simp [hc]
  | succ d ih =>
      intro i hbefore hc hlt
      rw [buildPoll]
      rw [dif_pos (by omega)]
      have harith : 10 * i + 10 = 10 * (i + 1) := by ring
      have hidx : i + 1 + d = i + (d + 1) := by omega
      have hrec : buildPoll check (i + 1) (10 * i + 10) = .success (10 * (i + (d + 1))) := by
        rw [harith]
        have := ih (i + 1)
          (fun j hj s hs => by
            have h := hbefore (j + 1) (by omega) s (by
              have : i + (j + 1) = i + 1 + j := by omega
              rw [this]
              exact hs)
            exact h)
          (by rw [hidx]; exact hc)
          (by omega)
        rw [this, hidx]
      cases h0 : check i with
      | none => exact hrec
      | some s =>
          have hs := hbefore 0 (Nat.succ_pos d) s (by simpa using h0)
          have hcond : ¬(s = "Failed" ∨ s = "Error") := by
            rintro (hx | hx)
            · exact hs.2.1 hx
            · exact hs.2.2 hx
          simp only [if_neg hs.1, if_neg hcond]
          exact hrec

theorem buildPoll_timeout_aux (check : Nat → Option String)
    (h : ∀ j s, check j = some s → s ≠ "Succeeded" ∧ s ≠ "Failed" ∧ s ≠ "Error") :
    ∀ n i, i + n = 30 → buildPoll check i (10 * i) = .timedOut := by
  intro n
  induction n with
  | zero =>
      intro i hi
      rw [buildPoll]
      have hge : ¬(10 * i < 300) := by omega
      rw [dif_neg hge]
  | succ n ih =>
      intro i hi
      rw [buildPoll]
      rw [dif_pos (by omega)]
      have harith : 10 * i + 10 = 10 * (i + 1) := by ring
      have hrec : buildPoll check (i + 1) (10 * i + 10) = .timedOut := by
        rw [harith]
        exact ih (i + 1) (by omega)
      cases h0 : check i with
      | none => exact hrec
      | some s =>
          have hs := h i s h0
          have hcond : ¬(s = "Failed" ∨ s = "Error") := by
            rintro (hx | hx)
            · exact hs.2.1 hx
            · exact hs.2.2 hx
          simp only [if_neg hs.1, if_neg hcond]
          exact hrec

/-- C4: for both poll loops (workspace Running status, environment build),
modelled over an arbitrary sequence of status-check results: when the done
predicate first holds at check k with k·10 < 300, the loop exits on the
success branch recording elapsed time k·10; when it never holds, the loop
exits on the timeout branch with exactly 300 s of accumulated sleep
intervals. The loops always reach one of their exits: `wsRunningPoll` and
`buildPoll` are total (well-founded) functions. -/
theorem poll_loops_spec (pred : Nat → Bool) (check : Nat → Option String) (k : Nat) :
    (pred k = true → (∀ j, j < k → pred j = false) → 10 * k < 300 →
        wsRunningPoll pred 0 0 = .success (10 * k))
    ∧ ((∀ j, pred j = false) → wsRunningPoll pred 0 0 = .timedOut 300)
    ∧ (check k = some "Succeeded" →
        (∀ j, j < k → ∀ s, check j = some s →
          s ≠ "Succeeded" ∧ s ≠ "Failed" ∧ s ≠ "Error") →
        10 * k < 300 →
        buildPoll check 0 0 = .success (10 * k))
    ∧ ((∀ j s, check j = some s → s ≠ "Succeeded" ∧ s ≠ "Failed" ∧ s ≠ "Error") →
        buildPoll check 0 0 = .timedOut) := by
  refine ⟨?_, ?_, ?_, ?_⟩
  · intro hp hb hlt
    have := wsRunningPoll_success_aux pred k 0
      (fun j hj => by simpa using hb j hj) (by simpa using hp) (by simpa using hlt)
    simpa using this
  · intro hp
    have := wsRunningPoll_timeout_aux pred hp 30 0 (by omega)
    simpa using this
  · intro hc hb hlt
    have := buildPoll_success_aux check k 0
      (fun j hj s hs => by
        refine hb j hj s ?_
        simpa using hs)
      (by simpa using hc) (by simpa using hlt)
    simpa using this
  · intro hall
    have := buildPoll_timeout_aux check hall 30 0 (by omega)
    simpa using this

/-- Witness for C4 at concrete check sequences. -/
theorem poll_loops_spec_witness :
    wsRunningPoll (fun j => j == 2) 0 0 = .success 20
    ∧ wsRunningPoll (fun _ => false) 0 0 = .timedOut 300
    ∧ buildPoll (fun j => if j == 1 then some "Succeeded" else some "Building") 0 0 = .success 10
    ∧ buildPoll (fun _ => some "Building") 0 0 = .timedOut := by
  refine ⟨?_, ?_, ?_, ?_⟩
  · have := (poll_loops_spec (fun j => j == 2) (fun _ => none) 2).1
      (by decide) (by decide) (by decide)
    simpa using this
  · exact (poll_loops_spec (fun _ => false) (fun _ => none) 0).2.1 (fun j => rfl)
  · have := (poll_loops_spec (fun _ => false)
      (fun j => if j == 1 then some "Succeeded" else some "Building") 1).2.2.1
      (by decide)
      (by
        intro j hj s hs
        have hj0 : j = 0 := by omega
        subst hj0
        simp only [show ((0 == 1) = false) from rfl, if_false] at hs
        have hsb : s = "Building" := by simpa using hs.symm
        subst hsb
        exact ⟨by decide, by decide, by decide⟩)
      (by decide)
    simpa using this
  · exact (poll_loops_spec (fun _ => false) (fun _ => some "Building") 0).2.2.2
      (by
        intro j s hs
        have hsb : s = "Building" := by simpa using hs.symm
        subst hsb
        exact ⟨by decide, by decide, by decide⟩)

/-- C7: the user suite's overall status (run_user_uat_suite) is PASSED
exactly when at least 60% of its sub-tests have status PASSED, and the
admin portal suite's pass/fail verdict — its `completion_status`
(run_admin_portal_uat_suite) — is PASSED exactly when at least 70% of its
categories have status PASSED; each is not PASSED otherwise. -/
theorem suite_threshold_spec (testStatuses categoryStatuses : List String) :
    (userSuiteOverallStatus testStatuses = "PASSED" ↔
      10 * countPassed testStatuses ≥ 6 * testStatuses.length)
    ∧ (adminCompletionStatus (countPassed categoryStatuses) categoryStatuses.length = "PASSED" ↔
      10 * countPassed categoryStatuses ≥ 7 * categoryStatuses.length) := by
  constructor
  · unfold userSuiteOverallStatus
    split_ifs with h
    · exact ⟨fun _ => h, fun _ => rfl⟩
    · exact ⟨fun hx => absurd hx (by decide), fun hx => absurd hx h⟩
  · unfold adminCompletionStatus
    split_ifs with h h2
    · exact ⟨fun _ => h, fun _ => rfl⟩
    · exact ⟨fun hx => absurd hx (by decide), fun hx => absurd hx h⟩
    · exact ⟨fun hx => absurd hx (by decide), fun hx => absurd hx h⟩

theorem find_map_update (l : List (String × Json)) (k : String) (v : Json)
    (h : l.any (fun p => p.1 == k) = true) :
    (l.map (fun p => if p.1 == k then (k, v) else p)).find? (fun p => p.1 == k)
      = some (k, v) := by
  induction l with
  | nil => simp at h
  | cons p rest ih =>
      by_cases hp : (p.1 == k) = true
      · have hq : (if p.1 == k then (k, v) else p) = (k, v) := if_pos hp
        rw [List.map_cons, hq, List.find?_cons_of_pos _ (by simp)]
      · have hpf : (p.1 == k) = false := by simpa using hp
        rw [List.map_cons, if_neg (by simp [hpf]),
          List.find?_cons_of_neg _ (by simp [hpf])]
        apply ih
        simpa [hpf] using h

theorem find_append_single (l : List (String × Json)) (k : String) (v : Json)
    (h : l.any (fun p => p.1 == k) = false) :
    (l ++ [(k, v)]).find? (fun p => p.1 == k) = some (k, v) := by
  induction l with
  | nil => simp
  | cons p rest ih =>
      simp only [List.any_cons, Bool.or_eq_false_iff] at h
      rw [List.cons_append, List.find?_cons_of_neg _ (by simp [h.1])]
      exact ih h.2

theorem find_dictInsertJ_same (d : List (String × Json)) (k : String) (v : Json) :
    (dictInsertJ d k v).find? (fun p => p.1 == k) = some (k, v) := by
  unfold dictInsertJ
  split_ifs with h
  · exact find_map_update d k v h
  · refine find_append_single d k v ?_
    cases hb : d.any (fun p => p.1 == k) with
    | false => rfl
    | true => exact absurd hb h

theorem find_map_update_other (l : List (String × Json)) (k k2 : String) (v : Json)
    (hkk : k ≠ k2) :
    (l.map (fun p => if p.1 == k2 then (k2, v) else p)).find? (fun p => p.1 == k)
      = l.find? (fun p => p.1 == k) := by
  have hk2k : ((k2 : String) == k) = false := by
    simp only [beq_eq_false_iff_ne, ne_eq]
    exact fun hx => hkk hx.symm
  induction l with
  | nil => rfl
  | cons p rest ih =>
      by_cases hp : (p.1 == k2) = true
      · have hq : (if p.1 == k2 then (k2, v) else p) = (k2, v) := if_pos hp
        have hp2 : p.1 = k2 := by simpa using hp
        have hpk : (p.1 == k) = false := by
          simp only [hp2, beq_eq_false_iff_ne, ne_eq]
          exact fun hx => hkk hx.symm
        rw [List.map_cons, hq, List.find?_cons_of_neg _ (by simp [hk2k]),
          List.find?_cons_of_neg _ (by simp [hpk])]
        exact ih
      · have hpf : (p.1 == k2) = false := by simpa using hp
        rw [List.map_cons, if_neg (by simp [hpf])]
        by_cases hpk : (p.1 == k) = true
        · rw [List.find?_cons_of_pos _ (by simp [hpk]), List.find?_cons_of_pos _ (by simp [hpk])]
        · have hpkf : (p.1 == k) = false := by simpa using hpk
          rw [List.find?_cons_of_neg _ (by simp [hpkf]),
            List.find?_cons_of_neg _ (by simp [hpkf])]
          exact ih

theorem find_append_single_other (l : List (String × Json)) (k k2 : String) (v : Json)
    (hkk : k ≠ k2) :
    (l ++ [(k2, v)]).find? (fun p => p.1 == k) = l.find? (fun p => p.1 == k) := by
  have hk2k : ((k2 : String) == k) = false := by
    simp only [beq_eq_false_iff_ne, ne_eq]
    exact fun hx => hkk hx.symm
  induction l with
  | nil => simp [List.find?, hk2k]
  | cons p rest ih =>
      rw [List.cons_append]
      by_cases hpk : (p.1 == k) = true
      · rw [List.find?_cons_of_pos _ (by simp [hpk]), List.find?_cons_of_pos _ (by simp [hpk])]
      · have hpkf : (p.1 == k) = false := by simpa using hpk
        rw [List.find?_cons_of_neg _ (by simp [hpkf]),
          List.find?_cons_of_neg _ (by simp [hpkf])]
        exact ih

theorem find_dictInsertJ_other (d : List (String × Json)) (k k2 : String) (v : Json)
    (hkk : k ≠ k2) :
    (dictInsertJ d k2 v).find? (fun p => p.1 == k) = d.find? (fun p => p.1 == k) := by
  unfold dictInsertJ
  split_ifs with h
  · exact find_map_update_other d k k2 v hkk
  · exact find_append_single_other d k k2 v hkk

/-- C5 counterexample: the claim says every public test_*/run_*/cleanup_*
tool catches exceptions and returns status FAILED with str(e) in the error
field, never letting an exception propagate. Three refutations from the
code: `test_comprehensive_ide_workspace_suite` (handler at
src/domino_qa_mcp_server.py:4650-4656) returns status "ERROR", not
"FAILED"; `run_domino_job` called with an unsafe user_name raises the
`ValueError` of `_validate_url_parameter` out of the tool (validation runs
before its `try`); and `run_domino_job`'s handler returns a mapping with no
status key whose error field is a prefixed message, not str(e). -/
theorem scenario_catch_all_counterexample :
    (getField (scenarioInvoke .comprehensiveIdeWorkspaceSuite
        [("test", .str "comprehensive_ide_workspace_suite")]
        (fun _ => .error "boom")) "status" = some (.str "ERROR")
      ∧ Json.str "ERROR" ≠ Json.str "FAILED")
    ∧ run_domino_job "a/b" "proj" (.ok .null)
        = .error "Invalid user_name: 'a/b' contains unsafe URL characters"
    ∧ (run_domino_job "user" "proj" (.otherExc "boom")
        = .ok (.obj [("error", .str "An unexpected error occurred: boom")])
      ∧ getField (.obj [("error", .str "An unexpected error occurred: boom")]) "status" = none
      ∧ Json.str "An unexpected error occurred: boom" ≠ Json.str "boom") := by
  refine ⟨⟨rfl, by simp⟩, rfl, rfl, rfl, by simp⟩

/-- C5 amended: of the public test_*/run_*/cleanup_* tools, the sixteen
record-based ones wrap their body (after the initial result record) in a
catch-all; a raised exception never propagates out of the tool call — the
wrapper is total — and yields the initial record updated with the handler's
status and the exception message in the error field; the handler status is
FAILED for every such tool except `test_comprehensive_ide_workspace_suite`
and `test_post_upgrade_env_rebuild`, whose handlers write ERROR; a normal
return is passed through unchanged. `run_domino_job` instead wraps only its
HTTP request: once its parameters pass validation it never raises and any
exception inside its `try` becomes a returned mapping whose only key is
"error" (message prefixed "API request failed: " for request exceptions,
"An unexpected error occurred: " otherwise, no status key); but a
`ValueError` raised by `_validate_url_parameter` on either parameter —
before the `try` — propagates out of the tool call. -/
theorem scenario_catch_all_spec (t : ScenarioTool) (initial : List (String × Json))
    (body : List (String × Json) → Except String Json)
    (u p : String) (tryOutcome : JobTryOutcome) :
    (∀ e, body initial = .error e →
        getField (scenarioInvoke t initial body) "status" = some (.str (exceptStatus t)) ∧
        getField (scenarioInvoke t initial body) "error" = some (.str e))
    ∧ (∀ r, body initial = .ok r → scenarioInvoke t initial body = r)
    ∧ (t ≠ .comprehensiveIdeWorkspaceSuite → t ≠ .postUpgradeEnvRebuild →
        exceptStatus t = "FAILED")
    ∧ (∀ x y, validate_url_parameter u "user_name" = .ok x →
        validate_url_parameter p "project_name" = .ok y →
        (∀ msg, tryOutcome = .requestExc msg → run_domino_job u p tryOutcome =
          .ok (.obj [("error", .str ("API request failed: " ++ msg))]))
        ∧ (∀ msg, tryOutcome = .otherExc msg → run_domino_job u p tryOutcome =
          .ok (.obj [("error", .str ("An unexpected error occurred: " ++ msg))]))
        ∧ (∀ j, tryOutcome = .ok j → run_domino_job u p tryOutcome = .ok j)
        ∧ (∀ v, getField (.obj [("error", v)]) "status" = none))
    ∧ (∀ e, validate_url_parameter u "user_name" = .error e →
        run_domino_job u p tryOutcome = .error e)
    ∧ (∀ x e, validate_url_parameter u "user_name" = .ok x →
        validate_url_parameter p "project_name" = .error e →
        run_domino_job u p tryOutcome = .error e) := by
  refine ⟨?_, ?_, ?_, ?_, ?_, ?_⟩
  · intro e he
    constructor
    · simp only [scenarioInvoke, he, getField]
      rw [find_dictInsertJ_other _ "status" "error" _ (by decide),
        find_dictInsertJ_same]
      rfl
    · simp only [scenarioInvoke, he, getField]
      rw [find_dictInsertJ_same]
      rfl
  · intro r hr
    simp [scenarioInvoke, hr]
  · intro h1 h2
    cases t <;> first
      | rfl
      | exact absurd rfl h1
      | exact absurd rfl h2
  · intro x y hx hy
    refine ⟨?_, ?_, ?_, fun v => rfl⟩
    · intro msg hm
      subst hm
      simp only [run_domino_job, hx, hy]
    · intro msg hm
      subst hm
      simp only [run_domino_job, hx, hy]
    · intro j hm
      subst hm
      simp only [run_domino_job, hx, hy]
  · intro e he
    simp only [run_domino_job, he]
  · intro x e hx he
    simp only [run_domino_job, hx, he]

/-- Witness for C5 (amended) at concrete inputs. -/
theorem scenario_catch_all_spec_witness :
    getField (scenarioInvoke .userAuthentication
        [("test", .str "user_authentication")] (fun _ => .error "kaput")) "status"
      = some (.str "FAILED")
    ∧ getField (scenarioInvoke .userAuthentication
        [("test", .str "user_authentication")] (fun _ => .error "kaput")) "error"
      = some (.str "kaput")
    ∧ scenarioInvoke .projectForking [] (fun _ => .ok (.obj [("status", .str "PASSED")]))
      = .obj [("status", .str "PASSED")]
    ∧ exceptStatus .jobScheduling = "FAILED"
    ∧ run_domino_job "user" "proj" (.requestExc "conn refused")
      = .ok (.obj [("error", .str ("API request failed: " ++ "conn refused"))])
    ∧ run_domino_job "user" "proj" (.ok (.obj [("jobId", .str "7")]))
      = .ok (.obj [("jobId", .str "7")])
    ∧ run_domino_job "a/b" "proj" (.ok .null)
      = .error "Invalid user_name: 'a/b' contains unsafe URL characters" := by
  refine ⟨?_, ?_, ?_, ?_, ?_, ?_, ?_⟩
  · exact ((scenario_catch_all_spec .userAuthentication
      [("test", .str "user_authentication")] (fun _ => .error "kaput")
      "user" "proj" (.ok .null)).1 "kaput" rfl).1
  · exact ((scenario_catch_all_spec .userAuthentication
      [("test", .str "user_authentication")] (fun _ => .error "kaput")
      "user" "proj" (.ok .null)).1 "kaput" rfl).2
  · exact (scenario_catch_all_spec .projectForking []
      (fun _ => .ok (.obj [("status", .str "PASSED")]))
      "user" "proj" (.ok .null)).2.1 _ rfl
  · exact (scenario_catch_all_spec .jobScheduling [] (fun _ => .ok .null)
      "user" "proj" (.ok .null)).2.2.1 (by decide) (by decide)
  · exact ((scenario_catch_all_spec .jobScheduling [] (fun _ => .ok .null)
      "user" "proj" (.requestExc "conn refused")).2.2.2.1 "user" "proj"
      rfl rfl).1 "conn refused" rfl
  · exact ((scenario_catch_all_spec .jobScheduling [] (fun _ => .ok .null)
      "user" "proj" (.ok (.obj [("jobId", .str "7")]))).2.2.2.1 "user" "proj"
      rfl rfl).2.2.1 _ rfl
  · exact (scenario_catch_all_spec .jobScheduling [] (fun _ => .ok .null)
      "a/b" "proj" (.ok .null)).2.2.2.2.1
      "Invalid user_name: 'a/b' contains unsafe URL characters" rfl
